import Mathlib

/-!
Verification of the firewall-rule validators of the
`palo_alto_gitops_firewall_rule_automation` repository.

The development shallowly embeds the two rule validators,
`scripts/validate_network.py` (class `NetworkValidator`) and
`scripts/validate_security.py` (class `SecurityPolicyValidator`), as pure
Lean functions.  The mutable `self.errors` / `self.warnings` / `self.info`
lists of the Python classes become explicit state records that the embedded
operations thread and extend.  The Python functions `ipaddress.ip_address` and
`ipaddress.ip_network` (CPython 3.11, `Lib/ipaddress.py`) are embedded as
executable parsers over lists of characters, following the control flow of
`_ip_int_from_string`, `_parse_octet`, `_parse_hextet`, `_make_netmask`,
`_prefix_from_prefix_string`, `_prefix_from_ip_string` and
`_split_optional_netmask`.  The two regular expressions of the network
validator are anchored on both sides (`^...$`, no MULTILINE), so they are
embedded as total-match recognisers; since none of the patterns can match a
newline character, the Python rule that `$` also matches just before a final
newline is embedded by stripping one trailing newline before matching.
All strings are treated as sequences of Unicode scalar values; the
case-folding used by the source (`str.lower`) is embedded as ASCII
case-folding, which coincides with Python on every character the
configurations and comparisons of this repository use.
-/

/-! ## Character and string helpers -/

/-- Lower-case a character, mirroring Python `str.lower` on the ASCII range. -/
def charLower (c : Char) : Char :=
  if 'A' ≤ c ∧ c ≤ 'Z' then Char.ofNat (c.toNat + 32) else c

/-- Lower-case a string, mirroring Python `str.lower`. -/
def strLower (s : String) : String :=
  ⟨s.data.map charLower⟩

/-- Split a list of characters at every occurrence of `sep`, mirroring
Python `str.split(sep)` with an explicit separator: consecutive separators
produce empty pieces and the empty input yields one empty piece. -/
def splitChar (sep : Char) : List Char → List (List Char)
  | [] => [[]]
  | c :: cs =>
    let r := splitChar sep cs
    if c = sep then [] :: r
    else
      match r with
      | h :: t => (c :: h) :: t
      | [] => [[c]]

/-- Split a list of characters at the first occurrence of `sep`, mirroring
Python `str.partition(sep)`: `none` when `sep` does not occur, otherwise
the pieces before and after the first occurrence. -/
def splitFirst (sep : Char) : List Char → Option (List Char × List Char)
  | [] => none
  | c :: cs =>
    if c = sep then some ([], cs)
    else (splitFirst sep cs).map (fun p => (c :: p.1, p.2))

/-- Decimal value of a list of ASCII digits, mirroring `int(s, 10)` on an
already-validated digit string. -/
def digitsToNat (l : List Char) : Nat :=
  l.foldl (fun a c => a * 10 + (c.toNat - 48)) 0

/-- Recogniser for the ASCII hex digits accepted by the CPython set
`_HEX_DIGITS`, the set of the ASCII hex digits in both cases. -/
def isHexDigitChar (c : Char) : Bool :=
  c.isDigit || ('a' ≤ c && c ≤ 'f') || ('A' ≤ c && c ≤ 'F')

/-- Numeric value of one hex digit. -/
def hexDigitVal (c : Char) : Nat :=
  if c.isDigit then c.toNat - 48
  else if 'a' ≤ c ∧ c ≤ 'f' then c.toNat - 87
  else c.toNat - 55

/-- Hexadecimal value of a list of hex digits, mirroring `int(s, 16)` on an
already-validated hex string. -/
def hexToNat (l : List Char) : Nat :=
  l.foldl (fun a c => a * 16 + hexDigitVal c) 0

/-- Lower-case hexadecimal rendering of a number, mirroring Python
the `%x` format (used by the IPv6 parser for the embedded-IPv4 hextets). -/
def hexChars (n : Nat) : List Char :=
  Nat.toDigits 16 n

/-! ## Embedding of CPython 3.11 `ipaddress` string parsing -/

/-- Parse one dotted-quad octet, mirroring `IPv4Address._parse_octet`:
non-empty, ASCII decimal digits only, at most 3 characters, no leading
zero (except `"0"` itself), value at most 255. -/
def parseOctet (l : List Char) : Option Nat :=
  if l = [] then none
  else if ¬ l.all Char.isDigit then none
  else if l.length > 3 then none
  else if l ≠ ['0'] ∧ l.head? = some '0' then none
  else
    let n := digitsToNat l
    if n > 255 then none else some n

/-- Parse a dotted-quad IPv4 address into its 32-bit value, mirroring
`IPv4Address._ip_int_from_string`: split on the dot, exactly four octets. -/
def ipv4IntFromString (l : List Char) : Option Nat :=
  match splitChar '.' l with
  | [a, b, c, d] => do
    let a ← parseOctet a
    let b ← parseOctet b
    let c ← parseOctet c
    let d ← parseOctet d
    pure (((a * 256 + b) * 256 + c) * 256 + d)
  | _ => none

/-- Mirror the string branch of `IPv4Address.__init__`: reject a `'/'`
anywhere, then parse the dotted quad. -/
def pyIPv4Address (l : List Char) : Option Nat :=
  if l.contains '/' then none else ipv4IntFromString l

/-- Parse one IPv6 hextet, mirroring `IPv6Address._parse_hextet`: hex
digits only, at most 4 characters, non-empty (in CPython, `int` of the
empty string raises). -/
def parseHextet (l : List Char) : Option Nat :=
  if ¬ l.all isHexDigitChar then none
  else if l.length > 4 then none
  else if l = [] then none
  else some (hexToNat l)

/-- Accumulate hextets into an integer, mirroring the
`ip_int <<= 16; ip_int |= hextet` loop (each hextet is below 2^16, so the
bitwise or is addition). -/
def foldHextets (start : Nat) (ps : List (List Char)) : Option Nat :=
  ps.foldl (fun acc h => do pure ((← acc) * 65536 + (← parseHextet h))) (some start)

/-- Indices of empty pieces strictly between the endpoints, mirroring the
`for i in range(1, len(parts) - 1)` scan for a `::` gap. -/
def interiorEmpties (parts : List (List Char)) : List Nat :=
  (List.range parts.length).filter
    (fun i => 1 ≤ i ∧ i + 1 < parts.length ∧ parts.getD i ['#'] = [])

/-- Parse an IPv6 address into its 128-bit value, mirroring
`IPv6Address._ip_int_from_string`: split on the colon, at least 3 pieces;
an IPv4-style last piece is converted to two hextets; at most 9 pieces;
at most one interior `::` gap, with leading/trailing empty pieces only
next to the gap; without a gap, exactly 8 non-empty pieces. -/
def ipv6IntFromString (l : List Char) : Option Nat :=
  let parts0 := splitChar ':' l
  if parts0.length < 3 then none
  else
    let withV4 : Option (List (List Char)) :=
      match parts0.getLast? with
      | some last =>
        if last.contains '.' then
          (ipv4IntFromString last).map
            (fun v => parts0.dropLast ++ [hexChars (v / 65536), hexChars (v % 65536)])
        else some parts0
      | none => none
    match withV4 with
    | none => none
    | some parts =>
      if parts.length > 9 then none
      else
        match interiorEmpties parts with
        | [] =>
          if parts.length ≠ 8 then none
          else if parts.head? = some [] then none
          else if parts.getLast? = some [] then none
          else foldHextets 0 parts
        | [i] =>
          let partsHi0 := i
          let partsLo0 := parts.length - i - 1
          let hiOk : Option Nat :=
            if parts.head? = some [] then
              (if partsHi0 - 1 ≠ 0 then none else some 0)
            else some partsHi0
          let loOk : Option Nat :=
            if parts.getLast? = some [] then
              (if partsLo0 - 1 ≠ 0 then none else some 0)
            else some partsLo0
          match hiOk, loOk with
          | some partsHi, some partsLo =>
            let partsSkipped := 8 - (partsHi + partsLo)
            if partsHi + partsLo ≥ 8 then none
            else do
              let hi ← foldHextets 0 (parts.take partsHi)
              foldHextets (hi * 65536 ^ partsSkipped) (parts.drop (parts.length - partsLo))
          | _, _ => none
        | _ => none

/-- Mirror `IPv6Address._split_scope_id`: split at the first `'%'`; a
present scope id must be non-empty and contain no further percent sign.
Returns
the address part. -/
def splitScopeId (l : List Char) : Option (List Char) :=
  match splitFirst '%' l with
  | none => some l
  | some (addr, scope) =>
    if scope = [] ∨ scope.contains '%' then none else some addr

/-- Mirror the string branch of `IPv6Address.__init__`: reject a `'/'`,
split off a scope id, then parse. -/
def pyIPv6Address (l : List Char) : Option Nat :=
  if l.contains '/' then none
  else do ipv6IntFromString (← splitScopeId l)

/-- Mirror `ipaddress.ip_address`: try IPv4, then IPv6.  The result is
`some false` for an IPv4 address and `some true` for an IPv6 address. -/
def ip_address (s : String) : Option Bool :=
  match pyIPv4Address s.data with
  | some _ => some false
  | none =>
    match pyIPv6Address s.data with
    | some _ => some true
    | none => none

/-- Count trailing zero bits, capped, mirroring
`_count_righthand_zero_bits(number, bits)` (0 maps to the cap).  The first
argument is fuel equal to the cap, which exceeds the position of the lowest
set bit for every in-range input. -/
def trailingZeroBits : Nat → Nat → Nat
  | 0, _ => 0
  | fuel + 1, n =>
    if n = 0 then fuel + 1
    else if n % 2 = 1 then 0
    else trailingZeroBits fuel (n / 2) + 1

/-- Mirror `_prefix_from_ip_int`: a mask integer is valid when it consists
of `prefixlen` one-bits followed by zero-bits within `maxlen` bits. -/
def prefixFromIpInt (maxlen n : Nat) : Option Nat :=
  let tz := trailingZeroBits maxlen n
  let prefixlen := maxlen - tz
  if n / 2 ^ tz = 2 ^ prefixlen - 1 then some prefixlen else none

/-- Mirror `IPv4Network._make_netmask` on a string argument: a pure ASCII
digit string within range is a prefix length (`_prefix_from_prefix_string`);
otherwise the string is parsed as a dotted quad and accepted as a netmask
or, after complementing, as a hostmask (`_prefix_from_ip_string`). -/
def v4MakeNetmask (l : List Char) : Option Nat :=
  let dotted : Option Nat :=
    match ipv4IntFromString l with
    | none => none
    | some n =>
      match prefixFromIpInt 32 n with
      | some p => some p
      | none => prefixFromIpInt 32 ((2 ^ 32 - 1) - n)
  if l ≠ [] ∧ l.all Char.isDigit then
    if digitsToNat l ≤ 32 then some (digitsToNat l) else dotted
  else dotted

/-- Mirror `IPv6Network._make_netmask` on a string argument: only the
prefix-length form is accepted. -/
def v6MakeNetmask (l : List Char) : Option Nat :=
  if l ≠ [] ∧ l.all Char.isDigit ∧ digitsToNat l ≤ 128 then some (digitsToNat l)
  else none

/-- Mirror `IPv4Network.__init__` (any strictness; host-bit masking does
not affect validity or prefix length): split on the slash (at most one), parse
the address part as an IPv4 address, the optional mask via
`_make_netmask`; a missing mask means prefix 32.  Returns the prefix
length. -/
def pyIPv4Network (l : List Char) : Option Nat :=
  match splitChar '/' l with
  | [a] => (ipv4IntFromString a).map (fun _ => 32)
  | [a, m] => do
    let _ ← ipv4IntFromString a
    v4MakeNetmask m
  | _ => none

/-- Mirror `IPv6Network.__init__`: split on `'/'` (at most one), parse the
address part as an IPv6 address (scope ids included, as `IPv6Address`
accepts them), the optional mask via `_make_netmask`; a missing mask means
prefix 128.  Returns the prefix length. -/
def pyIPv6Network (l : List Char) : Option Nat :=
  match splitChar '/' l with
  | [a] => (pyIPv6Address a).map (fun _ => 128)
  | [a, m] => do
    let _ ← pyIPv6Address a
    v6MakeNetmask m
  | _ => none

/-- Mirror `ipaddress.ip_network(addr, strict=False)`: try IPv4, then
IPv6.  The result carries the family (`true` for IPv6) and the prefix
length. -/
def ip_network (s : String) : Option (Bool × Nat) :=
  match pyIPv4Network s.data with
  | some p => some (false, p)
  | none =>
    match pyIPv6Network s.data with
    | some p => some (true, p)
    | none => none

/-- Number of addresses of a parsed network (`net.num_addresses`). -/
def numAddresses (fam : Bool × Nat) : Nat :=
  if fam.1 then 2 ^ (128 - fam.2) else 2 ^ (32 - fam.2)

/-! ## Embedding of the two regular expressions of the network validator

Both patterns are alternations of fully anchored branches. The Python
`re.match` with a `$` anchor (MULTILINE off) also accepts one trailing
newline; since no branch can match a newline, this is embedded by
stripping one trailing newline before recognising. -/

/-- Strip one trailing newline, the residue of `$` semantics. -/
def reBody (l : List Char) : List Char :=
  if l.getLast? = some '\n' then l.dropLast else l

/-- Character class `[a-zA-Z0-9_-]` (unchanged under IGNORECASE). -/
def isIdentChar (c : Char) : Bool :=
  c.isAlphanum || c = '_' || c = '-'

/-- Total match of `[a-zA-Z][a-zA-Z0-9_-]*` (the body of the
`address_object_pattern` of `NETWORK_CONFIG` and of the bare-name branch of
the service pattern). -/
def matchesCore : List Char → Bool
  | [] => false
  | c :: cs => c.isAlpha && cs.all isIdentChar

/-- Mirror `re.match(config["address_object_pattern"], address)` with the
configured pattern `^[a-zA-Z][a-zA-Z0-9_-]*$` of the repository. -/
def matchAddrObj (s : String) : Bool :=
  matchesCore (reBody s.data)

/-- Total match of `(tcp|udp|sctp)-(\d+)(?:-(\d+))?` under IGNORECASE,
mirroring the port regex of `validate_services`; returns the parsed
`port_start` and `port_end` (the latter defaulting to the former when the
third group is absent, as in the source). -/
def portMatch (s : String) : Option (Nat × Nat) :=
  let protoOk (p : List Char) : Bool :=
    p.map charLower = "tcp".data || p.map charLower = "udp".data ||
      p.map charLower = "sctp".data
  let digitsOk (d : List Char) : Bool := d ≠ [] && d.all Char.isDigit
  match splitChar '-' (reBody s.data) with
  | [p, d1] =>
    if protoOk p && digitsOk d1 then some (digitsToNat d1, digitsToNat d1) else none
  | [p, d1, d2] =>
    if protoOk p && digitsOk d1 && digitsOk d2 then
      some (digitsToNat d1, digitsToNat d2)
    else none
  | _ => none

/-- Mirror `re.match(service_pattern, service, re.IGNORECASE)` for
`service_pattern =
(tcp|udp|sctp)-\d+(-\d+)?$|^application-default$|^any$|^[a-zA-Z][a-zA-Z0-9_-]*$`
(each branch anchored).  The first branch recognises exactly the strings on
which `portMatch` succeeds, so it is embedded through it. -/
def serviceFormatOk (service : String) : Bool :=
  (portMatch service).isSome
    || (reBody service.data).map charLower = "application-default".data
    || (reBody service.data).map charLower = "any".data
    || matchesCore (reBody service.data)

/-! ## The rule record

The validators consume a parsed JSON object through `dict.get` with
defaults.  The embedding models exactly the fields the two validators
consult; an `Option` field distinguishes an absent key from an explicit
value, mirroring `rule.get(key, default)`.  The `metadata` mapping is
embedded by its only consulted key, `ticket_id` (absent mapping and absent
key coincide, as both make `metadata.get("ticket_id")` falsy, and an empty
string is falsy too). -/

structure Rule where
  rule_name : Option String := none
  description : Option String := none
  source_zone : List String := []
  destination_zone : List String := []
  source_address : List String := []
  destination_address : List String := []
  application : List String := []
  service : List String := []
  action : Option String := none
  log_at_session_start : Option Bool := none
  log_at_session_end : Option Bool := none
  ticket_id : Option String := none
deriving Repr

/-! ## Network validator (`scripts/validate_network.py`) -/

/-- The fields of `NETWORK_CONFIG` the validator reads.  The
`private_ranges` and `internal_networks` entries are never consulted by
any `NetworkValidator` method, and `address_object_pattern` is fixed to
the configured value of the repository inside `matchAddrObj`. -/
structure NetworkConfig where
  warn_addresses : List String
  valid_zones : List String
deriving Repr

/-- The `NETWORK_CONFIG` dictionary of the repository. -/
def NETWORK_CONFIG : NetworkConfig where
  warn_addresses := ["0.0.0.0/0", "255.255.255.255", "::/0"]
  valid_zones := ["trust", "untrust", "dmz", "internal", "external",
    "management", "database", "web", "app"]

/-- The mutable `self.errors` / `self.warnings` / `self.info` lists of a
`NetworkValidator` instance. -/
structure NetState where
  errors : List String
  warnings : List String
  info : List String
deriving DecidableEq, Repr

namespace NetworkValidator

/-- Mirror `NetworkValidator.reset`. -/
def reset (_s : NetState) : NetState :=
  ⟨[], [], []⟩

/-- Mirror `NetworkValidator.add_error`. -/
def add_error (s : NetState) (message : String) : NetState :=
  { s with errors := s.errors ++ [message] }

/-- Mirror `NetworkValidator.add_warning`. -/
def add_warning (s : NetState) (message : String) : NetState :=
  { s with warnings := s.warnings ++ [message] }

/-- Mirror `NetworkValidator.add_info`. -/
def add_info (s : NetState) (message : String) : NetState :=
  { s with info := s.info ++ [message] }

/-- Mirror `NetworkValidator.is_valid_ip_or_network`: keyword, then
address-object pattern (falling through when the string holds one of
`.`, `:`, `/`), then `ipaddress.ip_address`, then
`ipaddress.ip_network(..., strict=False)`. -/
def is_valid_ip_or_network (address : String) : Bool × String :=
  if strLower address = "any" ∨ strLower address = "none" then (true, "keyword")
  else if matchAddrObj address
      ∧ ¬ (address.data.contains '.' ∨ address.data.contains ':'
            ∨ address.data.contains '/') then
    (true, "address_object")
  else if (ip_address address).isSome then (true, "ip_address")
  else if (ip_network address).isSome then (true, "ip_network")
  else (false, "invalid")

/-- One iteration of the `for addr in addresses` loop of
`NetworkValidator.validate_addresses`; the accumulator carries the `valid`
flag and the validator state.  An invalid token records its error and
`continue`s past the remaining checks. -/
def addrStep (cfg : NetworkConfig) (address_type : String)
    (acc : Bool × NetState) (addr : String) : Bool × NetState :=
  let (valid, st) := acc
  let (ok, addr_type) := is_valid_ip_or_network addr
  if ¬ ok then
    (false, add_error st ("Invalid " ++ address_type ++ " address: " ++ addr))
  else
    let st :=
      if addr_type = "address_object" then
        add_info st (address_type ++ " uses address object: " ++ addr)
      else st
    let st :=
      if cfg.warn_addresses.contains addr then
        add_warning st (address_type ++ " contains special address: " ++ addr)
      else st
    let st :=
      if addr_type = "ip_network" ∧ addr.data.contains '/' then
        match ip_network addr with
        | some net =>
          if net.2 < 16 then
            add_warning st (address_type ++ " has large network ("
              ++ toString (numAddresses net) ++ " addresses): " ++ addr)
          else st
        | none => st
      else st
    (valid, st)

/-- Mirror `NetworkValidator.validate_addresses`. -/
def validate_addresses (cfg : NetworkConfig) (addresses : List String)
    (address_type : String) (s : NetState) : Bool × NetState :=
  addresses.foldl (addrStep cfg address_type) (true, s)

/-- One iteration of the `for zone in zones` loop of
`NetworkValidator.validate_zones`. -/
def zoneStep (cfg : NetworkConfig) (zone_type : String)
    (st : NetState) (zone : String) : NetState :=
  if ¬ (cfg.valid_zones.map strLower).contains (strLower zone)
      ∧ strLower zone ≠ "any" then
    add_warning st ("Unknown " ++ zone_type ++ " zone: " ++ zone)
  else st

/-- Mirror `NetworkValidator.validate_zones` (its `valid` flag is never
cleared, so the Boolean result is constantly `true`). -/
def validate_zones (cfg : NetworkConfig) (zones : List String)
    (zone_type : String) (s : NetState) : Bool × NetState :=
  (true, zones.foldl (zoneStep cfg zone_type) s)

/-- One iteration of the `for service in services` loop of
`NetworkValidator.validate_services`. -/
def svcStep (acc : Bool × NetState) (service : String) : Bool × NetState :=
  let (valid, st) := acc
  let st :=
    if ¬ serviceFormatOk service then
      add_warning st ("Unusual service format: " ++ service)
    else st
  match portMatch service with
  | some (port_start, port_end) =>
    let (valid, st) :=
      if port_start > 65535 ∨ port_end > 65535 then
        (false, add_error st ("Invalid port number in service: " ++ service))
      else (valid, st)
    if port_end < port_start then
      (false, add_error st ("Invalid port range in service: " ++ service))
    else (valid, st)
  | none => (valid, st)

/-- Mirror `NetworkValidator.validate_services`. -/
def validate_services (services : List String) (s : NetState) : Bool × NetState :=
  services.foldl svcStep (true, s)

/-- Mirror `NetworkValidator.validate_rule`.  Note that the source calls
`self.validate_services(services)` on line 220 without consuming its
Boolean result, so the returned flag reflects addresses only. -/
def validate_rule (cfg : NetworkConfig) (rule : Rule) (s : NetState) :
    Bool × NetState :=
  let (v1, s) := validate_addresses cfg rule.source_address "source" s
  let (v2, s) := validate_addresses cfg rule.destination_address "destination" s
  let (_, s) := validate_zones cfg rule.source_zone "source" s
  let (_, s) := validate_zones cfg rule.destination_zone "destination" s
  let s := if rule.service ≠ [] then (validate_services rule.service s).2 else s
  (v1 && v2, s)

end NetworkValidator

/-! ## Security policy validator (`scripts/validate_security.py`) -/

/-- The fields of `SECURITY_POLICIES` the validator reads.  The
`prohibited_destinations_allow` and `required_tags_production` entries are
empty in the repository and never consulted by any check. -/
structure SecurityPolicies where
  prohibited_sources : List String
  high_risk_ports : List String
  protected_zones : List String
  restricted_applications : List String
  max_addresses_per_rule : Nat
  require_logging : Bool
  require_description : Bool
  require_ticket_id : Bool
deriving Repr

/-- The `SECURITY_POLICIES` dictionary of the repository. -/
def SECURITY_POLICIES : SecurityPolicies where
  prohibited_sources := ["0.0.0.0/0"]
  high_risk_ports := ["tcp-22", "tcp-23", "tcp-3389", "tcp-1433",
    "tcp-3306", "tcp-5432", "tcp-27017"]
  protected_zones := ["trust", "internal", "database", "management"]
  restricted_applications := ["unknown-tcp", "unknown-udp", "bittorrent", "tor"]
  max_addresses_per_rule := 50
  require_logging := true
  require_description := true
  require_ticket_id := true

/-- One recorded finding: the source appends
`{"rule": ..., "message": ..., "severity": ...}` dictionaries. -/
structure SecEntry where
  rule : String
  message : String
  severity : String
deriving DecidableEq, Repr

/-- The mutable `self.warnings` / `self.errors` lists of a
`SecurityPolicyValidator` instance. -/
structure SecState where
  warnings : List SecEntry
  errors : List SecEntry
deriving DecidableEq, Repr

/-- Python `str.strip()` on the whitespace the inputs of this repository
use (space, tab, carriage return, newline). -/
def pyStrip (s : String) : String :=
  ⟨((s.data.dropWhile Char.isWhitespace).reverse.dropWhile Char.isWhitespace).reverse⟩

namespace SecurityPolicyValidator

/-- Mirror `SecurityPolicyValidator.reset`. -/
def reset (_s : SecState) : SecState :=
  ⟨[], []⟩

/-- Mirror `SecurityPolicyValidator.add_error`. -/
def add_error (s : SecState) (rule_name message : String) : SecState :=
  { s with errors := s.errors ++ [⟨rule_name, message, "ERROR"⟩] }

/-- Mirror `SecurityPolicyValidator.add_warning`. -/
def add_warning (s : SecState) (rule_name message : String) : SecState :=
  { s with warnings := s.warnings ++ [⟨rule_name, message, "WARNING"⟩] }

/-- Mirror `SecurityPolicyValidator._check_any_usage`. -/
def _check_any_usage (rule : Rule) (rule_name action : String)
    (s : SecState) : SecState :=
  if action = "allow" then
    let s :=
      if rule.source_address.contains "any" ∧ rule.destination_address.contains "any" then
        add_error s rule_name
          "Allow rule with \x27any\x27 source AND \x27any\x27 destination is prohibited"
      else if rule.source_address.contains "any" then
        add_warning s rule_name
          "Allow rule with \x27any\x27 source - ensure this is intentional"
      else if rule.destination_address.contains "any" then
        add_warning s rule_name
          "Allow rule with \x27any\x27 destination - ensure this is intentional"
      else s
    if rule.application.contains "any" ∧ rule.service.contains "any" then
      add_warning s rule_name "Allow rule permits any application and any service"
    else s
  else s

/-- Mirror `SecurityPolicyValidator._check_source_addresses`. -/
def _check_source_addresses (pol : SecurityPolicies) (rule : Rule)
    (rule_name action : String) (s : SecState) : SecState :=
  rule.source_address.foldl
    (fun st addr =>
      if pol.prohibited_sources.contains addr then
        if action = "allow" then
          add_error st rule_name ("Prohibited source address: " ++ addr)
        else st
      else st) s

/-- Mirror `SecurityPolicyValidator._check_high_risk_ports`. -/
def _check_high_risk_ports (pol : SecurityPolicies) (rule : Rule)
    (rule_name action : String) (s : SecState) : SecState :=
  if action = "allow" then
    rule.service.foldl
      (fun st service =>
        if (pol.high_risk_ports.map strLower).contains (strLower service) then
          add_warning st rule_name
            ("High-risk port detected: " ++ service
              ++ " - ensure proper approval obtained")
        else st) s
  else s

/-- Mirror `SecurityPolicyValidator._check_zone_policies`. -/
def _check_zone_policies (pol : SecurityPolicies) (rule : Rule)
    (rule_name action : String) (s : SecState) : SecState :=
  if action = "allow" then
    if rule.source_zone.contains "untrust" ∨ rule.source_zone.contains "external" then
      rule.destination_zone.foldl
        (fun st zone =>
          if (pol.protected_zones.map strLower).contains (strLower zone) then
            add_warning st rule_name
              ("Rule allows traffic from untrust to protected zone \x27"
                ++ zone ++ "\x27")
          else st) s
    else s
  else s

/-- Mirror `SecurityPolicyValidator._check_restricted_applications`. -/
def _check_restricted_applications (pol : SecurityPolicies) (rule : Rule)
    (rule_name action : String) (s : SecState) : SecState :=
  if action = "allow" then
    rule.application.foldl
      (fun st app =>
        if (pol.restricted_applications.map strLower).contains (strLower app) then
          add_error st rule_name ("Restricted application detected: " ++ app)
        else st) s
  else s

/-- Mirror `SecurityPolicyValidator._check_logging`.  The source reads
both flags with `rule.get(..., False)` (validate_security.py lines
194-195), so an absent key behaves as an explicit `false` here. -/
def _check_logging (pol : SecurityPolicies) (rule : Rule)
    (rule_name : String) (s : SecState) : SecState :=
  if pol.require_logging then
    let log_start := rule.log_at_session_start.getD false
    let log_end := rule.log_at_session_end.getD false
    if ¬ (log_start ∨ log_end) then
      add_warning s rule_name "Logging is not enabled for this rule"
    else s
  else s

/-- Mirror `SecurityPolicyValidator._check_description`. -/
def _check_description (pol : SecurityPolicies) (rule : Rule)
    (rule_name : String) (s : SecState) : SecState :=
  if pol.require_description then
    let description := rule.description.getD ""
    if description = "" ∨ (pyStrip description).length < 10 then
      add_warning s rule_name
        "Rule should have a meaningful description (min 10 characters)"
    else s
  else s

/-- Mirror `SecurityPolicyValidator._check_metadata`. -/
def _check_metadata (pol : SecurityPolicies) (rule : Rule)
    (rule_name : String) (s : SecState) : SecState :=
  if pol.require_ticket_id then
    if rule.ticket_id.getD "" = "" then
      add_warning s rule_name
        "Rule should have a ticket_id in metadata for audit purposes"
    else s
  else s

/-- Mirror `SecurityPolicyValidator._check_address_limits`. -/
def _check_address_limits (pol : SecurityPolicies) (rule : Rule)
    (rule_name : String) (s : SecState) : SecState :=
  let max_addresses := pol.max_addresses_per_rule
  let source_count := rule.source_address.length
  let dest_count := rule.destination_address.length
  let s :=
    if source_count > max_addresses then
      add_warning s rule_name ("Rule has " ++ toString source_count
        ++ " source addresses (max recommended: " ++ toString max_addresses ++ ")")
    else s
  if dest_count > max_addresses then
    add_warning s rule_name ("Rule has " ++ toString dest_count
      ++ " destination addresses (max recommended: " ++ toString max_addresses ++ ")")
  else s

/-- Mirror `SecurityPolicyValidator.validate_rule`: the action string is
lower-cased once and passed to every action-gated check, and the Boolean
result is `len(self.errors) == 0` on the state after all nine checks. -/
def validate_rule (pol : SecurityPolicies) (rule : Rule) (s : SecState) :
    Bool × SecState :=
  let rule_name := rule.rule_name.getD "Unknown"
  let action := strLower (rule.action.getD "")
  let s := _check_any_usage rule rule_name action s
  let s := _check_source_addresses pol rule rule_name action s
  let s := _check_high_risk_ports pol rule rule_name action s
  let s := _check_zone_policies pol rule rule_name action s
  let s := _check_restricted_applications pol rule rule_name action s
  let s := _check_logging pol rule rule_name s
  let s := _check_description pol rule rule_name s
  let s := _check_metadata pol rule rule_name s
  let s := _check_address_limits pol rule rule_name s
  (s.errors.isEmpty, s)

end SecurityPolicyValidator

/-! ## Append-only state evolution -/

/-- State `t` extends state `s` when every finding list of `s` is an
initial segment of the corresponding list of `t`: earlier findings are
neither removed, reordered nor modified. -/
def NetExtends (s t : NetState) : Prop :=
  ∃ e w i, t.errors = s.errors ++ e ∧ t.warnings = s.warnings ++ w
    ∧ t.info = s.info ++ i

/-- Analogue of `NetExtends` for the state of the security validator. -/
def SecExtends (s t : SecState) : Prop :=
  ∃ w e, t.warnings = s.warnings ++ w ∧ t.errors = s.errors ++ e

theorem netExtends_rfl (s : NetState) : NetExtends s s :=
  ⟨[], [], [], by simp, by simp, by simp⟩

theorem netExtends_trans {s t u : NetState} (h1 : NetExtends s t)
    (h2 : NetExtends t u) : NetExtends s u := by
  obtain ⟨e1, w1, i1, he1, hw1, hi1⟩ := h1
  obtain ⟨e2, w2, i2, he2, hw2, hi2⟩ := h2
  exact ⟨e1 ++ e2, w1 ++ w2, i1 ++ i2, by simp [he2, he1],
    by simp [hw2, hw1], by simp [hi2, hi1]⟩

theorem secExtends_rfl (s : SecState) : SecExtends s s :=
  ⟨[], [], by simp, by simp⟩

theorem secExtends_trans {s t u : SecState} (h1 : SecExtends s t)
    (h2 : SecExtends t u) : SecExtends s u := by
  obtain ⟨w1, e1, hw1, he1⟩ := h1
  obtain ⟨w2, e2, hw2, he2⟩ := h2
  exact ⟨w1 ++ w2, e1 ++ e2, by simp [hw2, hw1], by simp [he2, he1]⟩

theorem netExtends_add_error (s : NetState) (m : String) :
    NetExtends s (NetworkValidator.add_error s m) :=
  ⟨[m], [], [], rfl, by simp [NetworkValidator.add_error],
    by simp [NetworkValidator.add_error]⟩

theorem netExtends_add_warning (s : NetState) (m : String) :
    NetExtends s (NetworkValidator.add_warning s m) :=
  ⟨[], [m], [], by simp [NetworkValidator.add_warning], rfl,
    by simp [NetworkValidator.add_warning]⟩

theorem netExtends_add_info (s : NetState) (m : String) :
    NetExtends s (NetworkValidator.add_info s m) :=
  ⟨[], [], [m], by simp [NetworkValidator.add_info],
    by simp [NetworkValidator.add_info], rfl⟩

theorem secExtends_add_error (s : SecState) (n m : String) :
    SecExtends s (SecurityPolicyValidator.add_error s n m) :=
  ⟨[], [⟨n, m, "ERROR"⟩], by simp [SecurityPolicyValidator.add_error], rfl⟩

theorem secExtends_add_warning (s : SecState) (n m : String) :
    SecExtends s (SecurityPolicyValidator.add_warning s n m) :=
  ⟨[⟨n, m, "WARNING"⟩], [], rfl, by simp [SecurityPolicyValidator.add_warning]⟩

/-- Folding a per-element step that only extends the network state
extends the network state (step on a flag-state pair). -/
theorem foldl_net_extends2 {α : Type} (f : Bool × NetState → α → Bool × NetState)
    (h : ∀ s a, NetExtends s.2 (f s a).2) :
    ∀ (l : List α) (s : Bool × NetState), NetExtends s.2 (List.foldl f s l).2 := by
  intro l
  induction l with
  | nil => intro s; exact netExtends_rfl s.2
  | cons a t ih => intro s; exact netExtends_trans (h s a) (ih (f s a))

/-- Folding a per-element step that only extends the network state
extends the network state. -/
theorem foldl_net_extends {α : Type} (f : NetState → α → NetState)
    (h : ∀ s a, NetExtends s (f s a)) :
    ∀ (l : List α) (s : NetState), NetExtends s (List.foldl f s l) := by
  intro l
  induction l with
  | nil => intro s; exact netExtends_rfl s
  | cons a t ih => intro s; exact netExtends_trans (h s a) (ih (f s a))

/-- Folding a per-element step that only extends the security state
extends the security state. -/
theorem foldl_sec_extends {α : Type} (f : SecState → α → SecState)
    (h : ∀ s a, SecExtends s (f s a)) :
    ∀ (l : List α) (s : SecState), SecExtends s (List.foldl f s l) := by
  intro l
  induction l with
  | nil => intro s; exact secExtends_rfl s
  | cons a t ih => intro s; exact secExtends_trans (h s a) (ih (f s a))

theorem addrStep_extends (cfg : NetworkConfig) (ty : String)
    (acc : Bool × NetState) (addr : String) :
    NetExtends acc.2 (NetworkValidator.addrStep cfg ty acc addr).2 := by
  obtain ⟨v, st⟩ := acc
  dsimp only [NetworkValidator.addrStep]
  obtain ⟨ok, kind⟩ := NetworkValidator.is_valid_ip_or_network addr
  dsimp only
  split
  · exact netExtends_add_error st _
  · apply netExtends_trans (t := if kind = "address_object" then
      NetworkValidator.add_info st (ty ++ " uses address object: " ++ addr) else st)
    · split
      · exact netExtends_add_info st _
      · exact netExtends_rfl st
    · generalize (if kind = "address_object" then
        NetworkValidator.add_info st (ty ++ " uses address object: " ++ addr) else st) = st1
      apply netExtends_trans (t := if cfg.warn_addresses.contains addr then
        NetworkValidator.add_warning st1 (ty ++ " contains special address: " ++ addr) else st1)
      · split
        · exact netExtends_add_warning st1 _
        · exact netExtends_rfl st1
      · generalize (if cfg.warn_addresses.contains addr then
          NetworkValidator.add_warning st1 (ty ++ " contains special address: " ++ addr) else st1) = st2
        split
        · split
          · split
            · exact netExtends_add_warning st2 _
            · exact netExtends_rfl st2
          · exact netExtends_rfl st2
        · exact netExtends_rfl st2

theorem validate_addresses_extends (cfg : NetworkConfig) (addrs : List String)
    (ty : String) (s : NetState) :
    NetExtends s (NetworkValidator.validate_addresses cfg addrs ty s).2 :=
  foldl_net_extends2 (NetworkValidator.addrStep cfg ty)
    (addrStep_extends cfg ty) addrs (true, s)

theorem zoneStep_extends (cfg : NetworkConfig) (ty : String) (st : NetState)
    (zone : String) : NetExtends st (NetworkValidator.zoneStep cfg ty st zone) := by
  dsimp only [NetworkValidator.zoneStep]
  split
  · exact netExtends_add_warning st _
  · exact netExtends_rfl st

theorem validate_zones_extends (cfg : NetworkConfig) (zones : List String)
    (ty : String) (s : NetState) :
    NetExtends s (NetworkValidator.validate_zones cfg zones ty s).2 :=
  foldl_net_extends (NetworkValidator.zoneStep cfg ty)
    (zoneStep_extends cfg ty) zones s

theorem svcStep_extends (acc : Bool × NetState) (service : String) :
    NetExtends acc.2 (NetworkValidator.svcStep acc service).2 := by
  obtain ⟨v, st⟩ := acc
  dsimp only [NetworkValidator.svcStep]
  have hext1 : NetExtends st (if ¬ serviceFormatOk service then
      NetworkValidator.add_warning st ("Unusual service format: " ++ service)
      else st) := by
    split
    · exact netExtends_add_warning st _
    · exact netExtends_rfl st
  generalize hst1 : (if ¬ serviceFormatOk service then
      NetworkValidator.add_warning st ("Unusual service format: " ++ service)
      else st) = st1 at hext1
  cases hp : portMatch service with
  | none => simpa only [hp] using hext1
  | some pq =>
    obtain ⟨p1, p2⟩ := pq
    simp only [hp]
    try dsimp only
    split
    · try dsimp only
      split
      · exact netExtends_trans hext1
          (netExtends_trans (netExtends_add_error st1 _) (netExtends_add_error _ _))
      · exact netExtends_trans hext1 (netExtends_add_error st1 _)
    · try dsimp only
      split
      · exact netExtends_trans hext1 (netExtends_add_error st1 _)
      · exact hext1

theorem validate_services_extends (services : List String) (s : NetState) :
    NetExtends s (NetworkValidator.validate_services services s).2 :=
  foldl_net_extends2 NetworkValidator.svcStep svcStep_extends services (true, s)

theorem net_validate_rule_extends (cfg : NetworkConfig) (rule : Rule)
    (s : NetState) : NetExtends s (NetworkValidator.validate_rule cfg rule s).2 := by
  dsimp only [NetworkValidator.validate_rule]
  rcases h1 : NetworkValidator.validate_addresses cfg rule.source_address "source" s
    with ⟨v1, s1⟩
  rcases h2 : NetworkValidator.validate_addresses cfg rule.destination_address
    "destination" s1 with ⟨v2, s2⟩
  simp only [h1, h2]
  dsimp only [NetworkValidator.validate_zones]
  have e1 : NetExtends s s1 := by
    have := validate_addresses_extends cfg rule.source_address "source" s
    rwa [h1] at this
  have e2 : NetExtends s1 s2 := by
    have := validate_addresses_extends cfg rule.destination_address "destination" s1
    rwa [h2] at this
  have e3 := validate_zones_extends cfg rule.source_zone "source" s2
  dsimp only [NetworkValidator.validate_zones] at e3
  set s3 := rule.source_zone.foldl
    (NetworkValidator.zoneStep cfg "source") s2 with hs3
  have e4 := validate_zones_extends cfg rule.destination_zone "destination" s3
  dsimp only [NetworkValidator.validate_zones] at e4
  set s4 := rule.destination_zone.foldl
    (NetworkValidator.zoneStep cfg "destination") s3 with hs4
  have e5 : NetExtends s4 (if rule.service ≠ [] then
      (NetworkValidator.validate_services rule.service s4).2 else s4) := by
    split
    · exact validate_services_extends rule.service s4
    · exact netExtends_rfl s4
  exact netExtends_trans e1 (netExtends_trans e2
    (netExtends_trans e3 (netExtends_trans e4 e5)))

theorem check_any_usage_extends (rule : Rule) (n a : String) (s : SecState) :
    SecExtends s (SecurityPolicyValidator._check_any_usage rule n a s) := by
  dsimp only [SecurityPolicyValidator._check_any_usage]
  split
  · have hext1 : SecExtends s (if rule.source_address.contains "any"
        ∧ rule.destination_address.contains "any" then
        SecurityPolicyValidator.add_error s n
          "Allow rule with \x27any\x27 source AND \x27any\x27 destination is prohibited"
      else if rule.source_address.contains "any" then
        SecurityPolicyValidator.add_warning s n
          "Allow rule with \x27any\x27 source - ensure this is intentional"
      else if rule.destination_address.contains "any" then
        SecurityPolicyValidator.add_warning s n
          "Allow rule with \x27any\x27 destination - ensure this is intentional"
      else s) := by
      split
      · exact secExtends_add_error s n _
      · split
        · exact secExtends_add_warning s n _
        · split
          · exact secExtends_add_warning s n _
          · exact secExtends_rfl s
    generalize (if rule.source_address.contains "any"
        ∧ rule.destination_address.contains "any" then
        SecurityPolicyValidator.add_error s n
          "Allow rule with \x27any\x27 source AND \x27any\x27 destination is prohibited"
      else if rule.source_address.contains "any" then
        SecurityPolicyValidator.add_warning s n
          "Allow rule with \x27any\x27 source - ensure this is intentional"
      else if rule.destination_address.contains "any" then
        SecurityPolicyValidator.add_warning s n
          "Allow rule with \x27any\x27 destination - ensure this is intentional"
      else s) = s1 at hext1
    split
    · exact secExtends_trans hext1 (secExtends_add_warning s1 n _)
    · exact hext1
  · exact secExtends_rfl s

theorem check_source_addresses_extends (pol : SecurityPolicies) (rule : Rule)
    (n a : String) (s : SecState) :
    SecExtends s (SecurityPolicyValidator._check_source_addresses pol rule n a s) := by
  dsimp only [SecurityPolicyValidator._check_source_addresses]
  apply foldl_sec_extends
  intro t addr
  split
  · split
    · exact secExtends_add_error t n _
    · exact secExtends_rfl t
  · exact secExtends_rfl t

theorem check_high_risk_ports_extends (pol : SecurityPolicies) (rule : Rule)
    (n a : String) (s : SecState) :
    SecExtends s (SecurityPolicyValidator._check_high_risk_ports pol rule n a s) := by
  dsimp only [SecurityPolicyValidator._check_high_risk_ports]
  split
  · apply foldl_sec_extends
    intro t service
    split
    · exact secExtends_add_warning t n _
    · exact secExtends_rfl t
  · exact secExtends_rfl s

theorem check_zone_policies_extends (pol : SecurityPolicies) (rule : Rule)
    (n a : String) (s : SecState) :
    SecExtends s (SecurityPolicyValidator._check_zone_policies pol rule n a s) := by
  dsimp only [SecurityPolicyValidator._check_zone_policies]
  split
  · split
    · apply foldl_sec_extends
      intro t zone
      split
      · exact secExtends_add_warning t n _
      · exact secExtends_rfl t
    · exact secExtends_rfl s
  · exact secExtends_rfl s

theorem check_restricted_applications_extends (pol : SecurityPolicies)
    (rule : Rule) (n a : String) (s : SecState) :
    SecExtends s
      (SecurityPolicyValidator._check_restricted_applications pol rule n a s) := by
  dsimp only [SecurityPolicyValidator._check_restricted_applications]
  split
  · apply foldl_sec_extends
    intro t app
    split
    · exact secExtends_add_error t n _
    · exact secExtends_rfl t
  · exact secExtends_rfl s

theorem check_logging_extends (pol : SecurityPolicies) (rule : Rule)
    (n : String) (s : SecState) :
    SecExtends s (SecurityPolicyValidator._check_logging pol rule n s) := by
  dsimp only [SecurityPolicyValidator._check_logging]
  split
  · split
    · exact secExtends_add_warning s n _
    · exact secExtends_rfl s
  · exact secExtends_rfl s

theorem check_description_extends (pol : SecurityPolicies) (rule : Rule)
    (n : String) (s : SecState) :
    SecExtends s (SecurityPolicyValidator._check_description pol rule n s) := by
  dsimp only [SecurityPolicyValidator._check_description]
  split
  · split
    · exact secExtends_add_warning s n _
    · exact secExtends_rfl s
  · exact secExtends_rfl s

theorem check_metadata_extends (pol : SecurityPolicies) (rule : Rule)
    (n : String) (s : SecState) :
    SecExtends s (SecurityPolicyValidator._check_metadata pol rule n s) := by
  dsimp only [SecurityPolicyValidator._check_metadata]
  split
  · split
    · exact secExtends_add_warning s n _
    · exact secExtends_rfl s
  · exact secExtends_rfl s

theorem check_address_limits_extends (pol : SecurityPolicies) (rule : Rule)
    (n : String) (s : SecState) :
    SecExtends s (SecurityPolicyValidator._check_address_limits pol rule n s) := by
  dsimp only [SecurityPolicyValidator._check_address_limits]
  have hext1 : SecExtends s (if rule.source_address.length
      > pol.max_addresses_per_rule then
      SecurityPolicyValidator.add_warning s n ("Rule has "
        ++ toString rule.source_address.length
        ++ " source addresses (max recommended: "
        ++ toString pol.max_addresses_per_rule ++ ")")
    else s) := by
    split
    · exact secExtends_add_warning s n _
    · exact secExtends_rfl s
  generalize (if rule.source_address.length > pol.max_addresses_per_rule then
      SecurityPolicyValidator.add_warning s n ("Rule has "
        ++ toString rule.source_address.length
        ++ " source addresses (max recommended: "
        ++ toString pol.max_addresses_per_rule ++ ")")
    else s) = s1 at hext1
  split
  · exact secExtends_trans hext1 (secExtends_add_warning s1 n _)
  · exact hext1

/-- The full security validation extends the state left by its first
check: the eight later checks only append. -/
theorem sec_tail_extends (pol : SecurityPolicies) (rule : Rule) (s : SecState) :
    SecExtends
      (SecurityPolicyValidator._check_any_usage rule (rule.rule_name.getD "Unknown")
        (strLower (rule.action.getD "")) s)
      (SecurityPolicyValidator.validate_rule pol rule s).2 := by
  dsimp only [SecurityPolicyValidator.validate_rule]
  generalize SecurityPolicyValidator._check_any_usage rule (rule.rule_name.getD "Unknown")
    (strLower (rule.action.getD "")) s = s1
  exact secExtends_trans (check_source_addresses_extends pol rule _ _ s1)
    (secExtends_trans (check_high_risk_ports_extends pol rule _ _ _)
      (secExtends_trans (check_zone_policies_extends pol rule _ _ _)
        (secExtends_trans (check_restricted_applications_extends pol rule _ _ _)
          (secExtends_trans (check_logging_extends pol rule _ _)
            (secExtends_trans (check_description_extends pol rule _ _)
              (secExtends_trans (check_metadata_extends pol rule _ _)
                (check_address_limits_extends pol rule _ _)))))))

theorem sec_validate_rule_extends (pol : SecurityPolicies) (rule : Rule)
    (s : SecState) : SecExtends s (SecurityPolicyValidator.validate_rule pol rule s).2 :=
  secExtends_trans (check_any_usage_extends rule _ _ s) (sec_tail_extends pol rule s)

/-- Membership in the error list survives state extension. -/
theorem secExtends_mem_errors {s t : SecState} (h : SecExtends s t)
    {x : SecEntry} (hx : x ∈ s.errors) : x ∈ t.errors := by
  obtain ⟨w, e, hw, he⟩ := h
  rw [he]
  exact List.mem_append_left _ hx

/-- Folding a step that never changes the state leaves it unchanged. -/
theorem foldl_id {σ α : Type} (f : σ → α → σ) (h : ∀ s a, f s a = s) :
    ∀ (l : List α) (s : σ), List.foldl f s l = s := by
  intro l
  induction l with
  | nil => intro s; rfl
  | cons a t ih => intro s; rw [List.foldl_cons, h]; exact ih s

/-- Characters of a string accepted by the address-object pattern are a
leading letter and identifier characters, so the reserved punctuation and
the newline never occur in it. -/
theorem matchesCore_mem {l : List Char} (h : matchesCore l = true) :
    ∀ c ∈ l, c.isAlpha = true ∨ isIdentChar c = true := by
  cases l with
  | nil => simp [matchesCore] at h
  | cons c cs =>
    simp only [matchesCore, Bool.and_eq_true, List.all_eq_true] at h
    intro x hx
    rcases List.mem_cons.mp hx with hx | hx
    · exact Or.inl (hx ▸ h.1)
    · exact Or.inr (h.2 x hx)

theorem matchesCore_not_mem {l : List Char} (h : matchesCore l = true)
    {c : Char} (ha : c.isAlpha = false) (hi : isIdentChar c = false) : c ∉ l := by
  intro hm
  rcases matchesCore_mem h c hm with hc | hc
  · rw [ha] at hc; exact Bool.false_ne_true hc
  · rw [hi] at hc; exact Bool.false_ne_true hc

/-! ## The claims -/

/-- Claim C1 (refuted by the code, intent of the spec): the claim states
that `NetworkValidator.validate_rule` returns `false` whenever the error
list is non-empty, in particular for a rule whose only problem is a
service-port error.  The source discards the Boolean result of
`validate_services` (validate_network.py line 220), so for the rule
`{"service": ["tcp-99999"]}` the error list gains the invalid-port error
while `validate_rule` still returns `true`. -/
theorem c1_service_error_not_reflected_in_result :
    NetworkValidator.validate_rule NETWORK_CONFIG { service := ["tcp-99999"] }
      ⟨[], [], []⟩
    = (true, ⟨["Invalid port number in service: tcp-99999"], [], []⟩) := by
  decide

/-- Claim C2 (refuted by the code, intent of the spec): the claim states
that a rule leaving `log_at_session_start` and `log_at_session_end` absent
(documented default `true`) gets no logging warning under require-logging.
The source reads both flags with `rule.get(..., False)`
(validate_security.py lines 194-195), so a rule with both keys absent,
e.g. `{"action": "deny"}`, receives the logging warning. -/
theorem c2_logging_defaults_to_false_in_code :
    SecurityPolicyValidator._check_logging SECURITY_POLICIES
      { action := some "deny" } "r1" ⟨[], []⟩
      = ⟨[⟨"r1", "Logging is not enabled for this rule", "WARNING"⟩], []⟩
    ∧ (⟨"Unknown", "Logging is not enabled for this rule", "WARNING"⟩ : SecEntry) ∈
      (SecurityPolicyValidator.validate_rule SECURITY_POLICIES
        { action := some "deny" } ⟨[], []⟩).2.warnings := by
  constructor
  · decide
  · decide

/-- Claim C3, counterexamples: the claim quantifies over every string that
starts with a letter and avoids `.`, `:`, `/`.  The string `"a b"` is such
a string, yet classification rejects it (the configured pattern
`^[a-zA-Z][a-zA-Z0-9_-]*$` does not admit the space), and the string
`"any"` is such a string, yet classification returns kind `"keyword"`. -/
theorem c3_counterexample_space_and_keyword :
    NetworkValidator.is_valid_ip_or_network "a b" = (false, "invalid")
    ∧ NetworkValidator.is_valid_ip_or_network "any" = (true, "keyword") := by
  constructor
  · decide
  · decide

/-- Claim C3 as amended: every string that fully matches the configured
address-object pattern `^[a-zA-Z][a-zA-Z0-9_-]*$` (a letter followed by
letters, digits, underscores or hyphens) and is not the keyword
`any`/`none` (case-insensitively) classifies as a valid
`"address_object"`. -/
theorem c3_amended_pattern_strings_are_address_objects (s : String)
    (h1 : matchesCore s.data = true)
    (h2 : strLower s ≠ "any") (h3 : strLower s ≠ "none") :
    NetworkValidator.is_valid_ip_or_network s = (true, "address_object") := by
  have hre : reBody s.data = s.data := by
    unfold reBody
    split
    · next hlast =>
      exact absurd (List.mem_of_mem_getLast? hlast)
        (matchesCore_not_mem h1 (by decide) (by decide))
    · rfl
  have hm : matchAddrObj s = true := by
    unfold matchAddrObj
    rw [hre]
    exact h1
  have hdot : ('.' : Char) ∉ s.data := matchesCore_not_mem h1 (by decide) (by decide)
  have hcolon : (':' : Char) ∉ s.data := matchesCore_not_mem h1 (by decide) (by decide)
  have hslash : ('/' : Char) ∉ s.data := matchesCore_not_mem h1 (by decide) (by decide)
  unfold NetworkValidator.is_valid_ip_or_network
  rw [if_neg (fun h => h.elim h2 h3), if_pos]
  refine ⟨hm, ?_⟩
  intro hcontra
  rcases hcontra with hc | hc | hc <;>
    exact absurd (List.elem_iff.mp hc) (by assumption)

/-- Witness for the amended claim C3 at the concrete address object
`"web-srv_1"`. -/
theorem c3_amended_witness :
    matchesCore "web-srv_1".data = true
    ∧ strLower "web-srv_1" ≠ "any"
    ∧ strLower "web-srv_1" ≠ "none"
    ∧ NetworkValidator.is_valid_ip_or_network "web-srv_1"
        = (true, "address_object") :=
  ⟨by decide, by decide, by decide,
    c3_amended_pattern_strings_are_address_objects "web-srv_1"
      (by decide) (by decide) (by decide)⟩

/-- Claim C4: for an `allow` rule (after the lower-casing done by the
validator),
`any` in both address lists makes `_check_any_usage` record the
prohibition error, so the full security validation always ends with a
non-empty error list; `any` in exactly one of the two lists leaves the
error list of the check untouched and records the corresponding warning
instead. -/
theorem c4_any_usage_error_vs_warning :
    (∀ (pol : SecurityPolicies) (r : Rule) (s : SecState),
      strLower (r.action.getD "") = "allow" →
      r.source_address.contains "any" = true →
      r.destination_address.contains "any" = true →
      (SecurityPolicyValidator.validate_rule pol r s).2.errors ≠ [])
    ∧ (∀ (r : Rule) (n : String) (s : SecState),
      r.source_address.contains "any" = true →
      r.destination_address.contains "any" = false →
      (SecurityPolicyValidator._check_any_usage r n "allow" s).errors = s.errors
      ∧ (⟨n, "Allow rule with \x27any\x27 source - ensure this is intentional",
          "WARNING"⟩ : SecEntry) ∈
        (SecurityPolicyValidator._check_any_usage r n "allow" s).warnings)
    ∧ (∀ (r : Rule) (n : String) (s : SecState),
      r.source_address.contains "any" = false →
      r.destination_address.contains "any" = true →
      (SecurityPolicyValidator._check_any_usage r n "allow" s).errors = s.errors
      ∧ (⟨n, "Allow rule with \x27any\x27 destination - ensure this is intentional",
          "WARNING"⟩ : SecEntry) ∈
        (SecurityPolicyValidator._check_any_usage r n "allow" s).warnings) := by
  refine ⟨?_, ?_, ?_⟩
  · intro pol r s hact hsrc hdst
    have hentry : (⟨r.rule_name.getD "Unknown",
        "Allow rule with \x27any\x27 source AND \x27any\x27 destination is prohibited",
        "ERROR"⟩ : SecEntry) ∈
        (SecurityPolicyValidator._check_any_usage r (r.rule_name.getD "Unknown")
          (strLower (r.action.getD "")) s).errors := by
      rw [hact]
      dsimp only [SecurityPolicyValidator._check_any_usage]
      rw [if_pos rfl]
      split
      · rw [if_pos (And.intro hsrc hdst)]
        simp [SecurityPolicyValidator.add_warning, SecurityPolicyValidator.add_error]
      · rw [if_pos (And.intro hsrc hdst)]
        simp [SecurityPolicyValidator.add_error]
    exact List.ne_nil_of_mem
      (secExtends_mem_errors (sec_tail_extends pol r s) hentry)
  · intro r n s hsrc hdst
    dsimp only [SecurityPolicyValidator._check_any_usage]
    rw [if_pos rfl]
    have hcond : ¬ (r.source_address.contains "any"
        ∧ r.destination_address.contains "any") := by
      rw [hdst]
      exact fun h => Bool.false_ne_true h.2
    rw [if_neg hcond, if_pos hsrc]
    constructor
    · split
      · rfl
      · rfl
    · split
      · simp [SecurityPolicyValidator.add_warning]
      · simp [SecurityPolicyValidator.add_warning]
  · intro r n s hsrc hdst
    dsimp only [SecurityPolicyValidator._check_any_usage]
    rw [if_pos rfl]
    have hcond : ¬ (r.source_address.contains "any"
        ∧ r.destination_address.contains "any") := by
      rw [hsrc]
      exact fun h => Bool.false_ne_true h.1
    have hsrc' : ¬ (r.source_address.contains "any" = true) := by
      rw [hsrc]
      exact Bool.false_ne_true
    rw [if_neg hcond, if_neg hsrc', if_pos hdst]
    constructor
    · split
      · rfl
      · rfl
    · split
      · simp [SecurityPolicyValidator.add_warning]
      · simp [SecurityPolicyValidator.add_warning]

/-- Witness for claim C4 at concrete rules: `any` on both sides of an
allow rule yields an error in the final state; `any` on exactly one side
leaves the error list of the check empty and yields the warning. -/
theorem c4_witness :
    (strLower ((some "allow" : Option String).getD "") = "allow"
      ∧ (SecurityPolicyValidator.validate_rule SECURITY_POLICIES
          { action := some "allow", source_address := ["any"],
            destination_address := ["any"] } ⟨[], []⟩).2.errors ≠ [])
    ∧ ((SecurityPolicyValidator._check_any_usage
          { source_address := ["any"], destination_address := ["10.0.0.5"] }
          "r" "allow" ⟨[], []⟩).errors = []
      ∧ (⟨"r", "Allow rule with \x27any\x27 source - ensure this is intentional",
          "WARNING"⟩ : SecEntry) ∈
        (SecurityPolicyValidator._check_any_usage
          { source_address := ["any"], destination_address := ["10.0.0.5"] }
          "r" "allow" ⟨[], []⟩).warnings)
    ∧ ((SecurityPolicyValidator._check_any_usage
          { source_address := ["10.0.0.5"], destination_address := ["any"] }
          "r" "allow" ⟨[], []⟩).errors = []
      ∧ (⟨"r", "Allow rule with \x27any\x27 destination - ensure this is intentional",
          "WARNING"⟩ : SecEntry) ∈
        (SecurityPolicyValidator._check_any_usage
          { source_address := ["10.0.0.5"], destination_address := ["any"] }
          "r" "allow" ⟨[], []⟩).warnings) :=
  ⟨⟨by decide, c4_any_usage_error_vs_warning.1 SECURITY_POLICIES
      { action := some "allow", source_address := ["any"],
        destination_address := ["any"] } ⟨[], []⟩ (by decide) (by decide) (by decide)⟩,
    c4_any_usage_error_vs_warning.2.1
      { source_address := ["any"], destination_address := ["10.0.0.5"] }
      "r" ⟨[], []⟩ (by decide) (by decide),
    c4_any_usage_error_vs_warning.2.2
      { source_address := ["10.0.0.5"], destination_address := ["any"] }
      "r" ⟨[], []⟩ (by decide) (by decide)⟩

/-- Claim C5: a service token matching the proto-port pattern has its
ports parsed as integers; processing it appends the invalid-port error
exactly when a port exceeds 65535 (ports are non-negative integers, so
this is the only way out of [0, 65535]) and the invalid-range error
exactly when the end port is below the start port, and never touches the
warning or info lists.  The single token `"tcp-99999"` yields exactly one
error and no warnings. -/
theorem c5_service_port_errors :
    (∀ (t : String) (p1 p2 : Nat) (v : Bool) (s0 : NetState),
      portMatch t = some (p1, p2) →
      (NetworkValidator.svcStep (v, s0) t).2.errors
        = s0.errors
          ++ (if p1 > 65535 ∨ p2 > 65535
              then ["Invalid port number in service: " ++ t] else [])
          ++ (if p2 < p1
              then ["Invalid port range in service: " ++ t] else [])
      ∧ (NetworkValidator.svcStep (v, s0) t).2.warnings = s0.warnings
      ∧ (NetworkValidator.svcStep (v, s0) t).2.info = s0.info)
    ∧ NetworkValidator.validate_services ["tcp-99999"] ⟨[], [], []⟩
        = (false, ⟨["Invalid port number in service: tcp-99999"], [], []⟩) := by
  constructor
  · intro t p1 p2 v s0 hp
    have hfmt : serviceFormatOk t = true := by
      unfold serviceFormatOk
      rw [hp]
      rfl
    dsimp only [NetworkValidator.svcStep]
    by_cases h1 : p1 > 65535 ∨ p2 > 65535 <;> by_cases h2 : p2 < p1 <;>
      simp [hp, hfmt, h1, h2, NetworkValidator.add_error,
        NetworkValidator.add_warning]
  · decide

/-- Witness for claim C5 at the token `"udp-70000-2"`, which violates both
the port bound and the range order. -/
theorem c5_witness :
    portMatch "udp-70000-2" = some (70000, 2)
    ∧ (NetworkValidator.svcStep (true, ⟨[], [], []⟩) "udp-70000-2").2.errors
        = ([] : List String)
          ++ (if (70000 : Nat) > 65535 ∨ (2 : Nat) > 65535
              then ["Invalid port number in service: " ++ "udp-70000-2"] else [])
          ++ (if (2 : Nat) < 70000
              then ["Invalid port range in service: " ++ "udp-70000-2"] else []) :=
  ⟨by decide,
    (c5_service_port_errors.1 "udp-70000-2" 70000 2 true ⟨[], [], []⟩ (by decide)).1⟩

/-- Claim C6: a token that is not the `any`/`none` keyword, does not pass
the address-object pattern test, and parses neither as an IP address nor
as a network classifies as `"invalid"`, and processing such a token
appends exactly the one error `"Invalid <direction> address: <token>"`,
leaving warnings and info untouched and clearing the validity flag. -/
theorem c6_invalid_token_exactly_one_error :
    (∀ (addr : String),
      strLower addr ≠ "any" → strLower addr ≠ "none" →
      ¬ (matchAddrObj addr
          ∧ ¬ (addr.data.contains '.' ∨ addr.data.contains ':'
                ∨ addr.data.contains '/')) →
      ip_address addr = none → ip_network addr = none →
      NetworkValidator.is_valid_ip_or_network addr = (false, "invalid"))
    ∧ (∀ (cfg : NetworkConfig) (ty addr : String) (v : Bool) (st : NetState),
      NetworkValidator.is_valid_ip_or_network addr = (false, "invalid") →
      NetworkValidator.addrStep cfg ty (v, st) addr
        = (false, { st with errors :=
            st.errors ++ ["Invalid " ++ ty ++ " address: " ++ addr] })) := by
  constructor
  · intro addr h2 h3 hpat ha hn
    unfold NetworkValidator.is_valid_ip_or_network
    rw [if_neg (fun h => h.elim h2 h3), if_neg hpat]
    simp [ha, hn]
  · intro cfg ty addr v st hc
    dsimp only [NetworkValidator.addrStep]
    rw [hc]
    simp [NetworkValidator.add_error]

/-- Witness for claim C6 at the token `"1.2.3.4.5"` (five octets: not a
keyword, not address-object shaped, not an address, not a network). -/
theorem c6_witness :
    NetworkValidator.is_valid_ip_or_network "1.2.3.4.5" = (false, "invalid")
    ∧ NetworkValidator.addrStep NETWORK_CONFIG "source" (true, ⟨[], [], []⟩)
        "1.2.3.4.5"
      = (false, ⟨["Invalid " ++ "source" ++ " address: " ++ "1.2.3.4.5"], [], []⟩) :=
  ⟨c6_invalid_token_exactly_one_error.1 "1.2.3.4.5"
      (by decide) (by decide) (by decide) (by decide) (by decide),
    c6_invalid_token_exactly_one_error.2 NETWORK_CONFIG "source" "1.2.3.4.5"
      true ⟨[], [], []⟩ (by decide)⟩

/-- Claim C7: each of the three configured denylist tokens `0.0.0.0/0`,
`255.255.255.255` and `::/0` always classifies as valid, and processing
it as an address token of either direction appends the special-address
warning naming the token, whatever the prior state and validity flag. -/
theorem c7_denylist_token_always_warns :
    ∀ (ty : String) (v : Bool) (st : NetState),
      ((ty ++ " contains special address: " ++ "0.0.0.0/0") ∈
        (NetworkValidator.addrStep NETWORK_CONFIG ty (v, st) "0.0.0.0/0").2.warnings)
      ∧ ((ty ++ " contains special address: " ++ "255.255.255.255") ∈
        (NetworkValidator.addrStep NETWORK_CONFIG ty (v, st) "255.255.255.255").2.warnings)
      ∧ ((ty ++ " contains special address: " ++ "::/0") ∈
        (NetworkValidator.addrStep NETWORK_CONFIG ty (v, st) "::/0").2.warnings) := by
  intro ty v st
  refine ⟨?_, ?_, ?_⟩
  · have hc : NetworkValidator.is_valid_ip_or_network "0.0.0.0/0"
        = (true, "ip_network") := by decide
    have hn : ip_network "0.0.0.0/0" = some (false, 0) := by decide
    have hw : ("0.0.0.0/0" : String) ∈ NETWORK_CONFIG.warn_addresses := by decide
    have hs : ("0.0.0.0/0" : String).data.contains '/' = true := by decide
    dsimp only [NetworkValidator.addrStep]
    rw [hc]
    simp [hn, hw, hs, NetworkValidator.add_warning, NetworkValidator.add_info]
  · have hc : NetworkValidator.is_valid_ip_or_network "255.255.255.255"
        = (true, "ip_address") := by decide
    have hw : ("255.255.255.255" : String) ∈ NETWORK_CONFIG.warn_addresses := by decide
    dsimp only [NetworkValidator.addrStep]
    rw [hc]
    simp [hw, NetworkValidator.add_warning, NetworkValidator.add_info]
  · have hc : NetworkValidator.is_valid_ip_or_network "::/0"
        = (true, "ip_network") := by decide
    have hn : ip_network "::/0" = some (true, 0) := by decide
    have hw : ("::/0" : String) ∈ NETWORK_CONFIG.warn_addresses := by decide
    have hs : ("::/0" : String).data.contains '/' = true := by decide
    dsimp only [NetworkValidator.addrStep]
    rw [hc]
    simp [hn, hw, hs, NetworkValidator.add_warning, NetworkValidator.add_info]

/-- Claim C8: validating a rule twice from a reset validator yields the
same flag and the same error/warning/info lists, for both validators —
the result depends only on the rule and the configuration, not on any
state left by earlier runs. -/
theorem c8_revalidation_deterministic :
    ∀ (cfg : NetworkConfig) (pol : SecurityPolicies) (r : Rule)
      (s t : NetState) (s2 t2 : SecState),
      NetworkValidator.validate_rule cfg r (NetworkValidator.reset s)
        = NetworkValidator.validate_rule cfg r (NetworkValidator.reset t)
      ∧ SecurityPolicyValidator.validate_rule pol r
          (SecurityPolicyValidator.reset s2)
        = SecurityPolicyValidator.validate_rule pol r
          (SecurityPolicyValidator.reset t2) :=
  fun _ _ _ _ _ _ _ => ⟨rfl, rfl⟩

/-- Helper for C10: `_check_any_usage` leaves the state unchanged for a
non-allow action. -/
theorem check_any_usage_skip (r : Rule) (n a : String) (s : SecState)
    (h : a ≠ "allow") : SecurityPolicyValidator._check_any_usage r n a s = s := by
  dsimp only [SecurityPolicyValidator._check_any_usage]
  rw [if_neg h]

/-- Helper for C10: `_check_source_addresses` leaves the state unchanged
for a non-allow action. -/
theorem check_source_addresses_skip (pol : SecurityPolicies) (r : Rule)
    (n a : String) (s : SecState) (h : a ≠ "allow") :
    SecurityPolicyValidator._check_source_addresses pol r n a s = s := by
  dsimp only [SecurityPolicyValidator._check_source_addresses]
  apply foldl_id
  intro t addr
  split <;> rfl

/-- Helper for C10: `_check_high_risk_ports` leaves the state unchanged
for a non-allow action. -/
theorem check_high_risk_ports_skip (pol : SecurityPolicies) (r : Rule)
    (n a : String) (s : SecState) (h : a ≠ "allow") :
    SecurityPolicyValidator._check_high_risk_ports pol r n a s = s := by
  dsimp only [SecurityPolicyValidator._check_high_risk_ports]
  rw [if_neg h]

/-- Helper for C10: `_check_zone_policies` leaves the state unchanged for
a non-allow action. -/
theorem check_zone_policies_skip (pol : SecurityPolicies) (r : Rule)
    (n a : String) (s : SecState) (h : a ≠ "allow") :
    SecurityPolicyValidator._check_zone_policies pol r n a s = s := by
  dsimp only [SecurityPolicyValidator._check_zone_policies]
  rw [if_neg h]

/-- Helper for C10: `_check_restricted_applications` leaves the state
unchanged for a non-allow action. -/
theorem check_restricted_applications_skip (pol : SecurityPolicies) (r : Rule)
    (n a : String) (s : SecState) (h : a ≠ "allow") :
    SecurityPolicyValidator._check_restricted_applications pol r n a s = s := by
  dsimp only [SecurityPolicyValidator._check_restricted_applications]
  rw [if_neg h]

/-- Claim C9: every validator operation only appends to the finding
lists — the prior errors/warnings/info are an initial segment of the
result — and `reset` alone restores all lists to empty. -/
theorem c9_operations_append_only :
    (∀ (cfg : NetworkConfig) (addrs : List String) (ty : String) (s : NetState),
      NetExtends s (NetworkValidator.validate_addresses cfg addrs ty s).2)
    ∧ (∀ (cfg : NetworkConfig) (zones : List String) (ty : String) (s : NetState),
      NetExtends s (NetworkValidator.validate_zones cfg zones ty s).2)
    ∧ (∀ (svcs : List String) (s : NetState),
      NetExtends s (NetworkValidator.validate_services svcs s).2)
    ∧ (∀ (cfg : NetworkConfig) (r : Rule) (s : NetState),
      NetExtends s (NetworkValidator.validate_rule cfg r s).2)
    ∧ (∀ s : NetState, NetworkValidator.reset s = ⟨[], [], []⟩)
    ∧ (∀ (r : Rule) (n a : String) (s : SecState),
      SecExtends s (SecurityPolicyValidator._check_any_usage r n a s))
    ∧ (∀ (pol : SecurityPolicies) (r : Rule) (n a : String) (s : SecState),
      SecExtends s (SecurityPolicyValidator._check_source_addresses pol r n a s))
    ∧ (∀ (pol : SecurityPolicies) (r : Rule) (n a : String) (s : SecState),
      SecExtends s (SecurityPolicyValidator._check_high_risk_ports pol r n a s))
    ∧ (∀ (pol : SecurityPolicies) (r : Rule) (n a : String) (s : SecState),
      SecExtends s (SecurityPolicyValidator._check_zone_policies pol r n a s))
    ∧ (∀ (pol : SecurityPolicies) (r : Rule) (n a : String) (s : SecState),
      SecExtends s (SecurityPolicyValidator._check_restricted_applications pol r n a s))
    ∧ (∀ (pol : SecurityPolicies) (r : Rule) (n : String) (s : SecState),
      SecExtends s (SecurityPolicyValidator._check_logging pol r n s))
    ∧ (∀ (pol : SecurityPolicies) (r : Rule) (n : String) (s : SecState),
      SecExtends s (SecurityPolicyValidator._check_description pol r n s))
    ∧ (∀ (pol : SecurityPolicies) (r : Rule) (n : String) (s : SecState),
      SecExtends s (SecurityPolicyValidator._check_metadata pol r n s))
    ∧ (∀ (pol : SecurityPolicies) (r : Rule) (n : String) (s : SecState),
      SecExtends s (SecurityPolicyValidator._check_address_limits pol r n s))
    ∧ (∀ (pol : SecurityPolicies) (r : Rule) (s : SecState),
      SecExtends s (SecurityPolicyValidator.validate_rule pol r s).2)
    ∧ (∀ s : SecState, SecurityPolicyValidator.reset s = ⟨[], []⟩) :=
  ⟨validate_addresses_extends, validate_zones_extends, validate_services_extends,
    net_validate_rule_extends, fun _ => rfl, check_any_usage_extends,
    check_source_addresses_extends, check_high_risk_ports_extends,
    check_zone_policies_extends, check_restricted_applications_extends,
    check_logging_extends, check_description_extends, check_metadata_extends,
    check_address_limits_extends, sec_validate_rule_extends, fun _ => rfl⟩

/-- Claim C10: the security validator lower-cases the action once, so any
capitalisation of `allow` validates exactly like `allow`; and for a rule
whose action is not `allow` up to case (an absent action defaults to the
empty string), the whole run reduces to the four action-independent
checks — the five allow-gated checks contribute no error and no
warning. -/
theorem c10_action_case_insensitive :
    (∀ (pol : SecurityPolicies) (r : Rule) (s : SecState) (a : String),
      strLower a = "allow" →
      SecurityPolicyValidator.validate_rule pol { r with action := some a } s
        = SecurityPolicyValidator.validate_rule pol
            { r with action := some "allow" } s)
    ∧ (∀ (pol : SecurityPolicies) (r : Rule) (s : SecState),
      strLower (r.action.getD "") ≠ "allow" →
      SecurityPolicyValidator.validate_rule pol r s
        = (let n := r.rule_name.getD "Unknown"
           let s1 := SecurityPolicyValidator._check_logging pol r n s
           let s2 := SecurityPolicyValidator._check_description pol r n s1
           let s3 := SecurityPolicyValidator._check_metadata pol r n s2
           let s4 := SecurityPolicyValidator._check_address_limits pol r n s3
           (s4.errors.isEmpty, s4))) := by
  constructor
  · intro pol r s a h
    dsimp only [SecurityPolicyValidator.validate_rule]
    simp only [Option.getD_some]
    rw [h, show strLower "allow" = "allow" from by decide]
    rfl
  · intro pol r s h
    dsimp only [SecurityPolicyValidator.validate_rule]
    rw [check_any_usage_skip r _ _ s h,
      check_source_addresses_skip pol r _ _ s h,
      check_high_risk_ports_skip pol r _ _ s h,
      check_zone_policies_skip pol r _ _ s h,
      check_restricted_applications_skip pol r _ _ s h]

/-- Witness for claim C10: the capitalisation `"ALLOW"` validates like
`"allow"`, and the action `"deny"` reduces the run to the four
action-independent checks. -/
theorem c10_witness :
    (strLower "ALLOW" = "allow"
      ∧ SecurityPolicyValidator.validate_rule SECURITY_POLICIES
          { ({} : Rule) with action := some "ALLOW" } ⟨[], []⟩
        = SecurityPolicyValidator.validate_rule SECURITY_POLICIES
          { ({} : Rule) with action := some "allow" } ⟨[], []⟩)
    ∧ (strLower (((some "deny" : Option String)).getD "") ≠ "allow"
      ∧ SecurityPolicyValidator.validate_rule SECURITY_POLICIES
          { action := some "deny" } ⟨[], []⟩
        = (let n := ({ action := some "deny" } : Rule).rule_name.getD "Unknown"
           let s1 := SecurityPolicyValidator._check_logging SECURITY_POLICIES
             { action := some "deny" } n ⟨[], []⟩
           let s2 := SecurityPolicyValidator._check_description SECURITY_POLICIES
             { action := some "deny" } n s1
           let s3 := SecurityPolicyValidator._check_metadata SECURITY_POLICIES
             { action := some "deny" } n s2
           let s4 := SecurityPolicyValidator._check_address_limits SECURITY_POLICIES
             { action := some "deny" } n s3
           (s4.errors.isEmpty, s4))) :=
  ⟨⟨by decide, c10_action_case_insensitive.1 SECURITY_POLICIES {} ⟨[], []⟩
      "ALLOW" (by decide)⟩,
    ⟨by decide, c10_action_case_insensitive.2 SECURITY_POLICIES
      { action := some "deny" } ⟨[], []⟩ (by decide)⟩⟩
